import Mathlib

/-
  Shallow embedding of the core of the gbp-review-agent repository:
  - src/utils/mappers.ts (review/location mapping and the unreplied filter)
  - src/services/reviewService.ts (getReviews pagination, listLocations)
  - src/services/googleAuth.ts (token lifecycle)
  - src/utils/pathHelpers.ts (buildFullLocationPath) and
    ReviewService.resolveLocationPath
  - the post_reply MCP tool handler (input validation before the network call)

  JavaScript truthiness (empty string, 0, undefined are falsy) is modelled
  explicitly by the helpers below; `undefined`-able fields become Option.
-/

namespace Gbp

/-- JS truthiness of a possibly-undefined string: `undefined` and the empty
string are falsy. -/
def strTruthy : Option String → Bool
  | some s => s ≠ ""
  | none => false

/-- JS `a || d` where `a : string | undefined` and `d` is a string default. -/
def strOrD (a : Option String) (d : String) : String :=
  match a with
  | some s => if s = "" then d else s
  | none => d

/-- JS `a || b` where both operands are `string | undefined`. -/
def strOrOpt (a b : Option String) : Option String :=
  if strTruthy a then a else b

/-- JS `a || d` on numbers (counts): 0 is falsy and falls back to `d`. -/
def natOrD (a : Option Nat) (d : Nat) : Nat :=
  match a with
  | some n => if n = 0 then d else n
  | none => d

/-- JS truthiness of a possibly-undefined number: `undefined` and 0 are falsy. -/
def intTruthy : Option Int → Bool
  | some n => n ≠ 0
  | none => false

/-- JS `a || d` on epoch-millisecond numbers (`a : number | undefined`). -/
def intOrD (a : Option Int) (d : Int) : Int :=
  match a with
  | some n => if n = 0 then d else n
  | none => d

/-! ## Data model: raw upstream review shapes (untyped JSON, optional fields) -/

/-- Raw upstream reviewer object (`review.reviewer`), all fields optional. -/
structure ApiReviewer where
  profilePhotoUrl : Option String
  displayName : Option String
  isAnonymous : Option Bool
  deriving Repr, DecidableEq

/-- Raw upstream reply object (`review.reviewReply`). -/
structure ApiReviewReply where
  comment : Option String
  updateTime : Option String
  deriving Repr, DecidableEq

/-- Raw upstream review entry as returned by the reviews endpoint. -/
structure ApiReview where
  reviewId : Option String
  name : Option String
  reviewer : Option ApiReviewer
  starRating : Option String
  comment : Option String
  createTime : Option String
  updateTime : Option String
  reviewReply : Option ApiReviewReply
  deriving Repr, DecidableEq

/-- Mapped reviewer (`GoogleReview.reviewer` in src/types/index.ts). -/
structure GoogleReviewer where
  profilePhotoUrl : Option String
  displayName : String
  isAnonymous : Bool
  deriving Repr, DecidableEq

/-- Mapped reply (`ReviewReply` in src/types/index.ts). -/
structure ReviewReply where
  comment : String
  updateTime : String
  deriving Repr, DecidableEq

/-- Mapped review record (`GoogleReview` in src/types/index.ts). -/
structure GoogleReview where
  reviewId : String
  reviewer : GoogleReviewer
  starRating : String
  comment : String
  createTime : String
  updateTime : String
  reviewReply : Option ReviewReply
  name : String
  deriving Repr, DecidableEq

/-- JS `str.split('/')` on the character list: splitting never yields an
empty array (`"".split('/')` is `[""]`). -/
def splitSlash : List Char → List (List Char)
  | [] => [[]]
  | c :: cs =>
      let parts := splitSlash cs
      if c = '/' then [] :: parts
      else
        match parts with
        | [] => [[c]]
        | part :: more => (c :: part) :: more

/-- JS `name.split('/').pop()`: the last segment of the split. -/
def splitPop (s : String) : String :=
  String.mk ((splitSlash s.data).getLastD [])

/-- Embedding of `mapApiReviewToGoogleReview` (src/utils/mappers.ts:93-111).
`nowIso` stands for `new Date().toISOString()` at call time. -/
def mapApiReviewToGoogleReview (nowIso : String) (review : ApiReview) : GoogleReview :=
  { reviewId := strOrD review.reviewId
      (strOrD (review.name.map splitPop) "")
    reviewer :=
      { profilePhotoUrl := review.reviewer.bind (·.profilePhotoUrl)
        displayName := strOrD (review.reviewer.bind (·.displayName)) "Anonymous"
        isAnonymous := ((review.reviewer.bind (·.isAnonymous)).getD false) }
    starRating := strOrD review.starRating "STAR_RATING_UNSPECIFIED"
    comment := strOrD review.comment ""
    createTime := strOrD review.createTime nowIso
    updateTime := strOrD review.updateTime nowIso
    reviewReply := review.reviewReply.map (fun r =>
      { comment := strOrD r.comment ""
        updateTime := strOrD r.updateTime nowIso })
    name := strOrD review.name "" }

/-- Embedding of `filterUnrepliedReviews` (src/utils/mappers.ts:135-137):
keep the reviews whose `reviewReply` is absent (`!review.reviewReply`). -/
def filterUnrepliedReviews (reviews : List GoogleReview) : List GoogleReview :=
  reviews.filter (fun review => review.reviewReply.isNone)

/-! ## Data model: locations -/

/-- Raw upstream storefront address, all fields optional. -/
structure ApiAddress where
  addressLines : Option (List String)
  locality : Option String
  administrativeArea : Option String
  postalCode : Option String
  regionCode : Option String
  deriving Repr, DecidableEq

/-- Raw upstream phone-number entry. -/
structure ApiPhone where
  phoneNumber : Option String
  deriving Repr, DecidableEq

/-- Raw upstream location entry. -/
structure ApiLocation where
  name : Option String
  title : Option String
  phoneNumbers : Option (List ApiPhone)
  websiteUri : Option String
  storefrontAddress : Option ApiAddress
  deriving Repr, DecidableEq

/-- Mapped address (`BusinessLocation.address`). -/
structure Address where
  addressLines : List String
  locality : String
  administrativeArea : String
  postalCode : String
  regionCode : String
  deriving Repr, DecidableEq

/-- Mapped business location (`BusinessLocation` in src/types/index.ts). -/
structure BusinessLocation where
  name : Option String
  locationName : Option String
  primaryPhone : Option String
  websiteUri : Option String
  address : Option Address
  deriving Repr, DecidableEq

/-- Embedding of `mapApiLocationToBusinessLocation`
(src/utils/mappers.ts:116-130). -/
def mapApiLocationToBusinessLocation (location : ApiLocation) : BusinessLocation :=
  { name := location.name
    locationName := strOrOpt location.title location.name
    primaryPhone := (location.phoneNumbers.bind List.head?).bind (·.phoneNumber)
    websiteUri := location.websiteUri
    address := location.storefrontAddress.map (fun a =>
      { addressLines := a.addressLines.getD []
        locality := strOrD a.locality ""
        administrativeArea := strOrD a.administrativeArea ""
        postalCode := strOrD a.postalCode ""
        regionCode := strOrD a.regionCode "" }) }

/-! ## ReviewService.getReviews (src/services/reviewService.ts:122-174)

Two renderings of the same recursion are given.

The list model (`getReviewsGo`) presents the upstream as the chained
sequence of pages the cursor walk traverses: fetching with the current
cursor returns the head page, and `nextPageToken` is truthy exactly when
further pages remain.  This matches the spec's quantification over "page
sequences" and makes the fetch count explicit.

The cursor model (`getReviewsFuel`) presents the upstream as a function
from the request cursor to the response page, exactly as the code sees it,
with explicit fuel bounding the number of upstream review fetches; `none`
means the recursion did not complete within the fuel bound. -/

/-- One raw upstream reviews-endpoint response page in the list model:
`data.reviews` and `data.totalReviewCount` (`data.nextPageToken` is implied
by the remaining pages of the chain). -/
structure RawPage where
  reviews : List ApiReview
  totalReviewCount : Option Nat
  deriving Repr, DecidableEq

/-- Successful `getReviews` outcome in the list model: the filtered page,
whether a next-page cursor was returned, the reported `totalSize`, and the
number of upstream review fetches performed. -/
structure PagedResult where
  reviews : List GoogleReview
  hasNextPage : Bool
  totalSize : Nat
  fetches : Nat
  deriving Repr, DecidableEq

/-- The filtered (unreplied) subset of a raw page, as computed by
`getReviews`: map each raw entry with `mapApiReviewToGoogleReview`, then
`filterUnrepliedReviews`. -/
def filteredPage (nowIso : String) (page : RawPage) : List GoogleReview :=
  filterUnrepliedReviews (page.reviews.map (mapApiReviewToGoogleReview nowIso))

/-- List model of the recursion in `ReviewService.getReviews`
(src/services/reviewService.ts:146-164): fetch the head page, map and
filter; if the unreplied subset is empty and a next page exists (a non-empty
tail), recurse onto the tail; otherwise return the subset together with
`nextPageToken` presence and `totalSize := data.totalReviewCount || reviews.length`.
`fetches` counts upstream review fetches so far; `none` means there was no
page to fetch (out of the model's domain). -/
def getReviewsGo (nowIso : String) : List RawPage → Nat → Option PagedResult
  | [], _ => none
  | [page], fetches =>
      let reviews := filteredPage nowIso page
      some { reviews := reviews
             hasNextPage := false
             totalSize := natOrD page.totalReviewCount reviews.length
             fetches := fetches + 1 }
  | page :: next :: rest, fetches =>
      let reviews := filteredPage nowIso page
      if reviews.isEmpty then
        getReviewsGo nowIso (next :: rest) (fetches + 1)
      else
        some { reviews := reviews
               hasNextPage := true
               totalSize := natOrD page.totalReviewCount reviews.length
               fetches := fetches + 1 }

/-- One raw upstream reviews-endpoint response in the cursor model:
`data.reviews`, `data.nextPageToken` and `data.totalReviewCount`. -/
structure UpstreamPage where
  reviews : List ApiReview
  nextPageToken : Option String
  totalReviewCount : Option Nat

/-- Successful `getReviews` payload in the cursor model
(`GetReviewsResponse` in src/types/index.ts), plus the fetch count. -/
structure GetReviewsResponse where
  reviews : List GoogleReview
  nextPageToken : Option String
  totalSize : Nat
  fetches : Nat
  deriving Repr, DecidableEq

/-- Cursor model of the recursion in `ReviewService.getReviews`
(src/services/reviewService.ts:138-164): `upstream pageToken` is the
response to a GET with that `pageToken`.  The recursion step is exactly
`if (reviews.length === 0 && data.nextPageToken) return this.getReviews(locationName, pageSize, data.nextPageToken)`;
there is no guard comparing `data.nextPageToken` with the cursor just used.
`fuel` bounds the number of upstream review fetches; `none` means the
recursion performed `fuel` fetches without completing. -/
def getReviewsFuel (nowIso : String) (upstream : Option String → UpstreamPage) :
    Nat → Option String → Nat → Option GetReviewsResponse
  | 0, _, _ => none
  | fuel + 1, pageToken, fetches =>
      let data := upstream pageToken
      let allReviews := data.reviews.map (mapApiReviewToGoogleReview nowIso)
      let reviews := filterUnrepliedReviews allReviews
      if reviews.isEmpty && strTruthy data.nextPageToken then
        getReviewsFuel nowIso upstream fuel data.nextPageToken (fetches + 1)
      else
        some { reviews := reviews
               nextPageToken := data.nextPageToken
               totalSize := natOrD data.totalReviewCount reviews.length
               fetches := fetches + 1 }

/-! ## ReviewService.listLocations (src/services/reviewService.ts:54-117) -/

/-- Discriminated service outcome (`ServiceResponse` in src/types/index.ts). -/
structure ServiceResponse (α : Type) where
  success : Bool
  data : Option α
  error : Option String
  errorCode : Option String
  deriving Repr, DecidableEq

/-- Payload of a successful `listLocations` call. -/
structure ListLocationsResponse where
  locations : List BusinessLocation
  nextPageToken : Option String
  deriving Repr, DecidableEq

/-- The per-account accumulation loop of `listLocations`
(src/services/reviewService.ts:77-97): each element is one account's
location-fetch outcome; a failed fetch is caught, logged and skipped, a
successful one contributes its mapped locations in order. -/
def collectLocations (accountFetches : List (Except String (List ApiLocation))) :
    List BusinessLocation :=
  accountFetches.foldl (fun allLocations fetch =>
    match fetch with
    | .ok locations => allLocations ++ locations.map mapApiLocationToBusinessLocation
    | .error _ => allLocations) []

/-- Embedding of `ReviewService.listLocations`
(src/services/reviewService.ts:54-117).  The input is the outcome of the
accounts listing: `.error` when the accounts fetch itself throws (caught by
the outer handler), `.ok accountFetches` giving each found account's
location-fetch outcome.  An empty account list is a failure result; location
fetch errors of individual accounts are skipped. -/
def listLocations (upstream : Except String (List (Except String (List ApiLocation)))) :
    ServiceResponse ListLocationsResponse :=
  match upstream with
  | .error msg =>
      { success := false
        data := none
        error := some (if msg = "" then "Failed to fetch business locations" else msg)
        errorCode := some "LOCATIONS_FETCH_ERROR" }
  | .ok accountFetches =>
      if accountFetches.length = 0 then
        { success := false
          data := none
          error := some "No business accounts found. Please ensure your Google account has a Google Business Profile."
          errorCode := none }
      else
        { success := true
          data := some { locations := collectLocations accountFetches, nextPageToken := none }
          error := none
          errorCode := none }

/-! ## GoogleAuthService (src/services/googleAuth.ts)

Times are absolute epoch milliseconds (`Date.now()`), modelled as Int.
Network effects are modelled by making the upstream responses inputs and by
reporting the number of network calls each operation performs. -/

/-- Stored token set (`GoogleOAuthTokens` in src/types/index.ts). -/
structure GoogleOAuthTokens where
  access_token : String
  refresh_token : Option String
  scope : Option String
  token_type : String
  expires_in : Int
  expires_at : Int
  deriving Repr, DecidableEq

/-- Raw token response of `oauth2Client.getToken(code)`: the googleapis
library reports the absolute expiry as `expiry_date` (epoch ms). -/
structure TokenResponse where
  access_token : String
  refresh_token : Option String
  scope : Option String
  token_type : Option String
  expiry_date : Option Int
  deriving Repr, DecidableEq

/-- Raw credentials of `oauth2Client.refreshAccessToken()`. -/
structure Credentials where
  access_token : String
  expiry_date : Option Int
  deriving Repr, DecidableEq

/-- Embedding of `GoogleAuthService.isTokenValid`
(src/services/googleAuth.ts:93-96): a token set exists and `now < expires_at`. -/
def isTokenValid (tokens : Option GoogleOAuthTokens) (now : Int) : Bool :=
  match tokens with
  | none => false
  | some t => now < t.expires_at

/-- Embedding of the token construction in `GoogleAuthService.handleCallback`
(src/services/googleAuth.ts:56-78): the stored set is built from the raw
token response at time `now`; `expires_in` is
`tokens.expiry_date ? Math.floor((tokens.expiry_date - Date.now()) / 1000) : 3600`
and `expires_at` is `tokens.expiry_date || (Date.now() + 3600000)`. -/
def handleCallback (resp : TokenResponse) (now : Int) : GoogleOAuthTokens :=
  { access_token := resp.access_token
    refresh_token := resp.refresh_token
    scope := resp.scope
    token_type := strOrD resp.token_type "Bearer"
    expires_in :=
      if intTruthy resp.expiry_date then
        Int.fdiv ((resp.expiry_date.getD 0) - now) 1000
      else 3600
    expires_at := intOrD resp.expiry_date (now + 3600000) }

/-- Outcome of `refreshTokenIfNeeded`: the error message thrown or the token
state after the call, plus the number of refresh network calls issued. -/
structure RefreshOutcome where
  result : Except String (Option GoogleOAuthTokens)
  networkCalls : Nat
  deriving Repr

/-- Embedding of `GoogleAuthService.refreshTokenIfNeeded`
(src/services/googleAuth.ts:112-141).  `refreshResponse` is the outcome the
refresh exchange would produce if issued (`.error` when
`refreshAccessToken()` rejects).  No tokens: throw with zero calls; valid
token: return with zero calls; no refresh token (JS-falsy): throw with zero
calls; otherwise one refresh call, on success replacing `access_token`,
`expires_in` and `expires_at` in place. -/
def refreshTokenIfNeeded (tokens : Option GoogleOAuthTokens) (now : Int)
    (refreshResponse : Except String Credentials) : RefreshOutcome :=
  match tokens with
  | none => { result := .error "No tokens available", networkCalls := 0 }
  | some t =>
      if isTokenValid (some t) now then
        { result := .ok (some t), networkCalls := 0 }
      else if ¬ strTruthy t.refresh_token then
        { result := .error "No refresh token available", networkCalls := 0 }
      else
        match refreshResponse with
        | .error _ => { result := .error "Failed to refresh access token", networkCalls := 1 }
        | .ok credentials =>
            { result := .ok (some
                { t with
                  access_token := credentials.access_token
                  expires_in :=
                    if intTruthy credentials.expiry_date then
                      Int.fdiv ((credentials.expiry_date.getD 0) - now) 1000
                    else 3600
                  expires_at := intOrD credentials.expiry_date (now + 3600000) })
              networkCalls := 1 }

/-! ## Location path resolution (src/utils/pathHelpers.ts:11-27 and
src/services/reviewService.ts:42-49) -/

/-- JS `s.includes(pattern)`: `pattern` occurs in `s`, i.e. some suffix of
the character list of `s` starts with the character list of `pattern`. -/
def includes (s pattern : String) : Bool :=
  s.data.tails.any (fun t => pattern.data.isPrefixOf t)

/-- Embedding of `buildFullLocationPath` (src/utils/pathHelpers.ts:11-27):
full paths pass through; otherwise a JS-truthy account name is prefixed. -/
def buildFullLocationPath (locationName : String) (accountName : Option String) : String :=
  if includes locationName "accounts/" then locationName
  else if strTruthy accountName then (accountName.getD "") ++ "/" ++ locationName
  else locationName

/-- Embedding of `ReviewService.resolveLocationPath`
(src/services/reviewService.ts:42-49).  `firstAccount` is the name the
`getFirstAccount()` network call would return (`none` when it would throw
because no account exists).  Returns the resolved path (or `none` on throw)
and the number of account-list network calls performed. -/
def resolveLocationPath (locationName : String) (firstAccount : Option String) :
    Option String × Nat :=
  if includes locationName "accounts/" then (some locationName, 0)
  else
    match firstAccount with
    | none => (none, 1)
    | some account => (some (buildFullLocationPath locationName (some account)), 1)

/-! ## post_reply tool handler (createPostReplyTool) -/

/-- The whitespace class stripped by JS `String.prototype.trim`. -/
def isJsWhitespace (c : Char) : Bool :=
  c = ' ' || c = '\t' || c = '\n' || c = '\r' || c = '\x0b' || c = '\x0c'

/-- JS `!s.trim()`: the trimmed string is empty exactly when every character
of `s` is whitespace, so the handler's emptiness checks reduce to this. -/
def trimIsEmpty (s : String) : Bool :=
  s.data.all isJsWhitespace

/-- Outcome of the post_reply handler's validation phase: either an early
error returned before `reviewService.postReply` is invoked (so before any
network call), or the handler proceeds to post with the given arguments. -/
inductive HandlerOutcome where
  | rejected (message : String)
  | posted (locationName reviewId replyText : String)
  deriving Repr, DecidableEq

/-- Whether the handler reached the `reviewService.postReply` network call. -/
def HandlerOutcome.isPosted : HandlerOutcome → Bool
  | .posted _ _ _ => true
  | .rejected _ => false

/-- Embedding of the validation phase of the post_reply tool handler
(createPostReplyTool): empty-after-trim checks on `locationName`,
`reviewId` and `replyText`, then the `replyText.length > 4096` check, each
returning an error before the reply is posted; otherwise the handler
proceeds to `reviewService.postReply`. -/
def postReplyHandler (locationName reviewId replyText : String) : HandlerOutcome :=
  if trimIsEmpty locationName then
    .rejected "Error: locationName is required and cannot be empty"
  else if trimIsEmpty reviewId then
    .rejected "Error: reviewId is required and cannot be empty"
  else if trimIsEmpty replyText then
    .rejected "Error: replyText is required and cannot be empty"
  else if 4096 < replyText.length then
    .rejected "Error: replyText cannot exceed 4096 characters"
  else
    .posted locationName reviewId replyText

/-! ## Helper lemmas -/

/-- A review surviving `filterUnrepliedReviews` has no reply. -/
theorem reviewReply_eq_none_of_mem_filterUnrepliedReviews
    {r : GoogleReview} {l : List GoogleReview}
    (h : r ∈ filterUnrepliedReviews l) : r.reviewReply = none := by
  have h2 := (List.mem_filter.mp h).2
  simpa [Option.isNone_iff_eq_none] using h2

/-- Every successful outcome of the `getReviews` page walk is the filtered
subset of one of the upstream pages, with `totalSize` computed from that
page's `totalReviewCount` by JS `||` defaulting. -/
theorem getReviewsGo_shape (nowIso : String) :
    ∀ (pages : List RawPage) (f : Nat) (res : PagedResult),
      getReviewsGo nowIso pages f = some res →
      ∃ p ∈ pages, res.reviews = filteredPage nowIso p ∧
        res.totalSize = natOrD p.totalReviewCount res.reviews.length := by
  intro pages
  induction pages with
  | nil => intro f res h; simp [getReviewsGo] at h
  | cons page rest ih =>
      intro f res h
      cases rest with
      | nil =>
          rw [getReviewsGo] at h
          refine ⟨page, List.mem_cons_self page _, ?_⟩
          cases h
          simp
      | cons next rs =>
          rw [getReviewsGo] at h
          by_cases he : (filteredPage nowIso page).isEmpty
          · rw [if_pos he] at h
            obtain ⟨p, hp, hshape⟩ := ih (f + 1) res h
            exact ⟨p, List.mem_cons_of_mem page hp, hshape⟩
          · rw [if_neg he] at h
            refine ⟨page, List.mem_cons_self page _, ?_⟩
            cases h
            simp

/-- The `getReviews` page walk over a block of pages whose unreplied subset
is empty, followed by a page with a non-empty subset, returns that page's
subset after one fetch per page walked. -/
theorem getReviewsGo_skip (nowIso : String) :
    ∀ (pre : List RawPage) (page : RawPage) (rest : List RawPage) (f : Nat),
      (∀ q ∈ pre, filteredPage nowIso q = []) →
      filteredPage nowIso page ≠ [] →
      getReviewsGo nowIso (pre ++ page :: rest) f =
        some { reviews := filteredPage nowIso page
               hasNextPage := !rest.isEmpty
               totalSize := natOrD page.totalReviewCount (filteredPage nowIso page).length
               fetches := f + (pre.length + 1) } := by
  intro pre
  induction pre with
  | nil =>
      intro page rest f _ hpage
      cases rest with
      | nil => rw [List.nil_append, getReviewsGo]; rfl
      | cons next rs =>
          rw [List.nil_append, getReviewsGo,
            if_neg (by simpa [List.isEmpty_iff] using hpage)]
          rfl
  | cons q pre' ih =>
      intro page rest f hpre hpage
      have hq : filteredPage nowIso q = [] := hpre q (List.mem_cons_self q _)
      have hne : pre' ++ page :: rest ≠ [] := by simp
      rw [List.cons_append]
      cases hpp : pre' ++ page :: rest with
      | nil => exact absurd hpp hne
      | cons x xs =>
          rw [getReviewsGo, if_pos (by simp [hq])]
          rw [← hpp, ih page rest (f + 1)
            (fun q hq2 => hpre q (List.mem_cons_of_mem _ hq2)) hpage]
          congr 1
          simp
          omega

/-! ## C5: idempotent location path resolution -/

/-- C5: for every location identifier that already contains the accounts/
segment, `resolveLocationPath` returns it unchanged with zero network
calls, and a second application of resolution to the result again returns
the same path with zero network calls. -/
theorem resolveLocationPath_idempotent (p : String) (a a' : Option String)
    (h : includes p "accounts/" = true) :
    resolveLocationPath p a = (some p, 0) ∧
      ∀ q, (resolveLocationPath p a).1 = some q →
        resolveLocationPath q a' = (some q, 0) := by
  have h1 : resolveLocationPath p a = (some p, 0) := by
    simp [resolveLocationPath, h]
  refine ⟨h1, ?_⟩
  intro q hq
  rw [h1] at hq
  cases hq
  simp [resolveLocationPath, h]

/-- Witness for C5 at a concrete fully-qualified path. -/
theorem resolveLocationPath_idempotent_witness :
    resolveLocationPath "accounts/123/locations/456" none =
        (some "accounts/123/locations/456", 0) ∧
      ∀ q, (resolveLocationPath "accounts/123/locations/456" none).1 = some q →
        resolveLocationPath q (some "accounts/999") = (some q, 0) :=
  resolveLocationPath_idempotent "accounts/123/locations/456" none
    (some "accounts/999") (by decide)

/-! ## C8: reply length boundary in the post_reply handler -/

/-- C8: a replyText of 4097 characters never reaches the
`reviewService.postReply` network call, while a replyText of exactly 4096
characters (that is not all whitespace, with non-blank location and review
arguments) passes the length check and proceeds to the post. -/
theorem postReplyHandler_length_boundary (l r t t' : String)
    (hlen : t.length = 4097)
    (hlen' : t'.length = 4096) (ht' : trimIsEmpty t' = false)
    (hl : trimIsEmpty l = false) (hr : trimIsEmpty r = false) :
    (postReplyHandler l r t).isPosted = false ∧
      postReplyHandler l r t' = .posted l r t' := by
  constructor
  · rw [postReplyHandler]
    split
    · rfl
    split
    · rfl
    split
    · rfl
    split
    · rfl
    · rename_i hcond
      rw [hlen] at hcond
      exact absurd (by decide) hcond
  · rw [postReplyHandler, if_neg (by simp [hl]), if_neg (by simp [hr]),
      if_neg (by simp [ht']), if_neg (by rw [hlen']; decide)]

/-- A block of 4096 repeated characters followed by nothing, used to hit the
boundary exactly. -/
def replyOfLength (n : Nat) : String :=
  String.mk (List.replicate n 'a')

/-- Witness for C8 at concrete 4097- and 4096-character reply texts. -/
theorem postReplyHandler_length_boundary_witness :
    (postReplyHandler "accounts/1/locations/2" "rev1" (replyOfLength 4097)).isPosted
        = false ∧
      postReplyHandler "accounts/1/locations/2" "rev1" (replyOfLength 4096) =
        .posted "accounts/1/locations/2" "rev1" (replyOfLength 4096) := by
  have hlen : ∀ n, (replyOfLength n).length = n := by
    intro n
    simp [replyOfLength, String.length]
  have hws : ∀ n, trimIsEmpty (replyOfLength (n + 1)) = false := by
    intro n
    simp [replyOfLength, trimIsEmpty, List.replicate_succ, isJsWhitespace]
  exact postReplyHandler_length_boundary "accounts/1/locations/2" "rev1"
    (replyOfLength 4097) (replyOfLength 4096)
    (hlen 4097) (hlen 4096)
    (by have := hws 4095; norm_num at this ⊢; exact this)
    (by decide) (by decide)

/-! ## Concrete review data used by witnesses and counterexamples -/

/-- A raw upstream review without a reply. -/
def rawUnreplied : ApiReview :=
  { reviewId := some "rA"
    name := some "accounts/1/locations/2/reviews/rA"
    reviewer := some { profilePhotoUrl := none, displayName := some "Pat", isAnonymous := some false }
    starRating := some "TWO"
    comment := some "Slow service"
    createTime := some "2024-10-15T14:30:00Z"
    updateTime := some "2024-10-15T14:30:00Z"
    reviewReply := none }

/-- A raw upstream review that already carries a reply. -/
def rawReplied : ApiReview :=
  { reviewId := some "rB"
    name := some "accounts/1/locations/2/reviews/rB"
    reviewer := some { profilePhotoUrl := none, displayName := some "Sam", isAnonymous := some false }
    starRating := some "FIVE"
    comment := some "Great"
    createTime := some "2024-10-14T09:00:00Z"
    updateTime := some "2024-10-14T09:00:00Z"
    reviewReply := some { comment := some "Thanks!", updateTime := some "2024-10-14T10:00:00Z" } }

/-- An upstream page containing only the replied review. -/
def pageAllReplied : RawPage :=
  { reviews := [rawReplied], totalReviewCount := some 2 }

/-- An upstream page containing one unreplied review. -/
def pageWithUnreplied : RawPage :=
  { reviews := [rawUnreplied, rawReplied], totalReviewCount := some 2 }

/-! ## C1: pagination skip invariant -/

/-- C1: when the first pages of the upstream sequence have an empty
unreplied subset and the following page has a non-empty one, `getReviews`
started at the initial cursor returns exactly that page's unreplied subset
after exactly one upstream fetch per page walked; and whenever a page's
unreplied subset is empty and a next page exists, the walk recurses onto
the next page instead of returning the empty page. -/
theorem getReviews_skip_invariant (nowIso : String)
    (pre : List RawPage) (page : RawPage) (rest : List RawPage)
    (emptyPage contPage : RawPage) (more : List RawPage) (f : Nat)
    (hpre : ∀ q ∈ pre, filteredPage nowIso q = [])
    (hpage : filteredPage nowIso page ≠ []) :
    getReviewsGo nowIso (pre ++ page :: rest) 0 =
      some { reviews := filteredPage nowIso page
             hasNextPage := !rest.isEmpty
             totalSize := natOrD page.totalReviewCount (filteredPage nowIso page).length
             fetches := pre.length + 1 } ∧
    (filteredPage nowIso emptyPage = [] →
      getReviewsGo nowIso (emptyPage :: contPage :: more) f =
        getReviewsGo nowIso (contPage :: more) (f + 1)) := by
  constructor
  · have h := getReviewsGo_skip nowIso pre page rest 0 hpre hpage
    rw [h]
    congr 1
    simp
  · intro hempty
    rw [getReviewsGo, if_pos (by simp [hempty])]

/-- Witness for C1: one all-replied page followed by a page holding an
unreplied review; the walk returns that review after two fetches. -/
theorem getReviews_skip_invariant_witness :
    getReviewsGo "2024-10-16T00:00:00Z" ([pageAllReplied] ++ pageWithUnreplied :: []) 0 =
      some { reviews := filteredPage "2024-10-16T00:00:00Z" pageWithUnreplied
             hasNextPage := !(List.isEmpty ([] : List RawPage))
             totalSize := natOrD pageWithUnreplied.totalReviewCount
               (filteredPage "2024-10-16T00:00:00Z" pageWithUnreplied).length
             fetches := [pageAllReplied].length + 1 } ∧
    (filteredPage "2024-10-16T00:00:00Z" pageAllReplied = [] →
      getReviewsGo "2024-10-16T00:00:00Z" (pageAllReplied :: pageAllReplied :: []) 0 =
        getReviewsGo "2024-10-16T00:00:00Z" (pageAllReplied :: []) (0 + 1)) :=
  getReviews_skip_invariant "2024-10-16T00:00:00Z" [pageAllReplied]
    pageWithUnreplied [] pageAllReplied pageAllReplied [] 0
    (by intro q hq; simp [List.mem_singleton] at hq; subst hq; decide)
    (by decide)

/-! ## C3: the unreplied retrieval path never returns a replied review -/

/-- C3: every review record in a successful `getReviews` result has an
absent `reviewReply`. -/
theorem getReviews_returns_only_unreplied (nowIso : String)
    (pages : List RawPage) (res : PagedResult)
    (h : getReviewsGo nowIso pages 0 = some res) :
    ∀ r ∈ res.reviews, r.reviewReply = none := by
  obtain ⟨p, _, hrev, _⟩ := getReviewsGo_shape nowIso pages 0 res h
  intro r hr
  rw [hrev] at hr
  exact reviewReply_eq_none_of_mem_filterUnrepliedReviews hr

/-- Witness for C3: the concrete mapped unreplied review returned for the
two-page upstream above indeed carries no reply. -/
theorem getReviews_returns_only_unreplied_witness :
    (mapApiReviewToGoogleReview "2024-10-16T00:00:00Z" rawUnreplied).reviewReply = none := by
  have h := getReviews_returns_only_unreplied "2024-10-16T00:00:00Z"
    [pageAllReplied, pageWithUnreplied]
    { reviews := [mapApiReviewToGoogleReview "2024-10-16T00:00:00Z" rawUnreplied]
      hasNextPage := false
      totalSize := 2
      fetches := 2 }
    (by decide)
  exact h (mapApiReviewToGoogleReview "2024-10-16T00:00:00Z" rawUnreplied)
    (List.mem_singleton.mpr rfl)

/-! ## C10: totalSize reporting -/

/-- An upstream page whose response carries `totalReviewCount` equal to 0
while still listing an unreplied review. -/
def pageZeroCount : RawPage :=
  { reviews := [rawUnreplied], totalReviewCount := some 0 }

/-- An upstream page whose response omits `totalReviewCount`. -/
def pageNoCount : RawPage :=
  { reviews := [rawUnreplied, rawReplied], totalReviewCount := none }

/-- C10 counterexample: with `totalReviewCount` present and equal to 0 the
reported `totalSize` is the filtered page length (1), not the upstream
value 0 — a present `totalReviewCount` of 0 is falsy under JS `||` and is
not passed through unchanged. -/
theorem getReviews_totalSize_counterexample :
    pageZeroCount.totalReviewCount = some 0 ∧
      (getReviewsGo "2024-10-16T00:00:00Z" [pageZeroCount] 0).map PagedResult.totalSize
        = some 1 ∧ (1 : Nat) ≠ 0 := by
  refine ⟨rfl, by decide, by decide⟩

/-- C10 amended: a successful `getReviews` result draws its `totalSize`
from the page it returns: when that page's `totalReviewCount` is absent or
zero, `totalSize` is the number of unreplied reviews returned (after
filtering); when it is present and non-zero it is passed through
unchanged. -/
theorem getReviews_totalSize_reporting (nowIso : String)
    (pages : List RawPage) (res : PagedResult)
    (h : getReviewsGo nowIso pages 0 = some res) :
    ∃ p ∈ pages, res.reviews = filteredPage nowIso p ∧
      (p.totalReviewCount = none → res.totalSize = res.reviews.length) ∧
      (p.totalReviewCount = some 0 → res.totalSize = res.reviews.length) ∧
      (∀ n, p.totalReviewCount = some n → n ≠ 0 → res.totalSize = n) := by
  obtain ⟨p, hp, hrev, htot⟩ := getReviewsGo_shape nowIso pages 0 res h
  refine ⟨p, hp, hrev, ?_, ?_, ?_⟩
  · intro hnone; rw [htot, hnone]; rfl
  · intro hzero; rw [htot, hzero]; rfl
  · intro n hn hne
    rw [htot, hn]
    simp [natOrD, hne]

/-- Witness for C10: a single page omitting `totalReviewCount` reports the
filtered length as `totalSize`. -/
theorem getReviews_totalSize_reporting_witness :
    ({ reviews := filteredPage "2024-10-16T00:00:00Z" pageNoCount
       hasNextPage := false
       totalSize := 1
       fetches := 1 } : PagedResult).totalSize =
      ({ reviews := filteredPage "2024-10-16T00:00:00Z" pageNoCount
         hasNextPage := false
         totalSize := 1
         fetches := 1 } : PagedResult).reviews.length := by
  obtain ⟨p, hp, _, hnone, _, _⟩ := getReviews_totalSize_reporting
    "2024-10-16T00:00:00Z" [pageNoCount]
    { reviews := filteredPage "2024-10-16T00:00:00Z" pageNoCount
      hasNextPage := false
      totalSize := 1
      fetches := 1 }
    (by decide)
  rw [List.mem_singleton] at hp
  subst hp
  exact hnone rfl

/-! ## C2: behaviour on a repeated upstream cursor -/

/-- A misbehaving upstream that answers every request with the same
all-replied page carrying the same cursor. -/
def constCursorUpstream : Option String → UpstreamPage := fun _ =>
  { reviews := [rawReplied], nextPageToken := some "tok", totalReviewCount := some 1 }

/-- C2 counterexample: against the constant-cursor upstream, a run allowed
eight upstream fetches still completes none of them with a result — the
repeated identical cursor is not treated as exhaustion and no empty result
is returned at it. -/
theorem getReviews_cursor_guard_counterexample :
    getReviewsFuel "2024-10-16T00:00:00Z" constCursorUpstream 8 (some "tok") 0 = none := by
  decide

/-- C2 amended: `getReviews` has no repeated-cursor guard: against an
upstream that always returns an all-replied page with the same cursor, the
recursion never completes within any bound on the number of upstream
fetches; the walk stops only when a fetched page has a non-empty unreplied
subset or a falsy next-page cursor. -/
theorem getReviews_no_cursor_guard :
    (∀ (fuel : Nat) (tok : Option String) (f : Nat),
      getReviewsFuel "2024-10-16T00:00:00Z" constCursorUpstream fuel tok f = none) ∧
    (∀ (nowIso : String) (upstream : Option String → UpstreamPage)
        (fuel : Nat) (tok : Option String) (f : Nat),
      strTruthy (upstream tok).nextPageToken = false →
      (getReviewsFuel nowIso upstream (fuel + 1) tok f).isSome = true) := by
  constructor
  · intro fuel
    induction fuel with
    | zero => intro tok f; rfl
    | succ n ih =>
        intro tok f
        rw [getReviewsFuel]
        simp only [constCursorUpstream]
        rw [if_pos (by decide)]
        exact ih (some "tok") (f + 1)
  · intro nowIso upstream fuel tok f h
    rw [getReviewsFuel]
    rw [if_neg (by simp [h])]
    rfl

/-- Witness for C2's amended statement: a concrete bounded run against the
constant-cursor upstream yields no result, while a single fetch against an
upstream returning no cursor completes. -/
theorem getReviews_no_cursor_guard_witness :
    getReviewsFuel "2024-10-16T00:00:00Z" constCursorUpstream 3 (some "tok") 0 = none ∧
      (getReviewsFuel "2024-10-16T00:00:00Z"
        (fun _ => { reviews := [rawReplied], nextPageToken := none, totalReviewCount := none })
        1 none 0).isSome = true :=
  ⟨getReviews_no_cursor_guard.1 3 (some "tok") 0,
    getReviews_no_cursor_guard.2 "2024-10-16T00:00:00Z"
      (fun _ => { reviews := [rawReplied], nextPageToken := none, totalReviewCount := none })
      0 none 0 rfl⟩

/-! ## C9: star rating mapping -/

/-- A raw upstream review whose entry lacks a rating. -/
def rawUnrated : ApiReview :=
  { reviewId := some "rC"
    name := some "accounts/1/locations/2/reviews/rC"
    reviewer := none
    starRating := none
    comment := some "No stars given"
    createTime := some "2024-10-13T08:00:00Z"
    updateTime := some "2024-10-13T08:00:00Z"
    reviewReply := none }

/-- A raw upstream review rated FIVE. -/
def rawRatedFive : ApiReview :=
  { rawUnrated with reviewId := some "rD", starRating := some "FIVE" }

/-- C9 counterexample: mapping an upstream entry that lacks a rating yields
the sentinel STAR_RATING_UNSPECIFIED, which is not one of
ONE|TWO|THREE|FOUR|FIVE — the missing rating is silently coerced to an
unspecified value. -/
theorem mapApiReview_starRating_counterexample :
    rawUnrated.starRating = none ∧
      (mapApiReviewToGoogleReview "2024-10-16T00:00:00Z" rawUnrated).starRating
        = "STAR_RATING_UNSPECIFIED" ∧
      (mapApiReviewToGoogleReview "2024-10-16T00:00:00Z" rawUnrated).starRating
        ∉ (["ONE", "TWO", "THREE", "FOUR", "FIVE"] : List String) := by
  refine ⟨rfl, rfl, by decide⟩

/-- C9 amended: the mapped `starRating` lies in ONE..FIVE exactly when the
upstream entry supplies such a value; a present non-empty upstream rating
is passed through unchanged, and an absent one is coerced to the sentinel
string STAR_RATING_UNSPECIFIED (never to an absent field — the mapped field
is total). -/
theorem mapApiReview_starRating_mapping (nowIso : String) (review : ApiReview) :
    ((mapApiReviewToGoogleReview nowIso review).starRating
        ∈ (["ONE", "TWO", "THREE", "FOUR", "FIVE"] : List String) ↔
      review.starRating
        ∈ ([some "ONE", some "TWO", some "THREE", some "FOUR", some "FIVE"] :
            List (Option String))) ∧
    (review.starRating = none →
      (mapApiReviewToGoogleReview nowIso review).starRating = "STAR_RATING_UNSPECIFIED") ∧
    (∀ s : String, review.starRating = some s → s ≠ "" →
      (mapApiReviewToGoogleReview nowIso review).starRating = s) := by
  have hproj : (mapApiReviewToGoogleReview nowIso review).starRating
      = strOrD review.starRating "STAR_RATING_UNSPECIFIED" := rfl
  refine ⟨?_, ?_, ?_⟩
  · rw [hproj]
    cases hr : review.starRating with
    | none => simp [strOrD]
    | some s =>
        by_cases hs : s = ""
        · subst hs; simp [strOrD]
        · simp [strOrD, hs]
  · intro hnone
    rw [hproj, hnone]
    rfl
  · intro s hs hne
    rw [hproj, hs]
    simp [strOrD, hne]

/-- Witness for C9's amended statement: a FIVE rating is passed through. -/
theorem mapApiReview_starRating_mapping_witness :
    (mapApiReviewToGoogleReview "2024-10-16T00:00:00Z" rawRatedFive).starRating = "FIVE" :=
  (mapApiReview_starRating_mapping "2024-10-16T00:00:00Z" rawRatedFive).2.2
    "FIVE" rfl (by decide)

/-! ## C6: derivation of the stored expiry -/

/-- The raw token response used by the C6 counterexample: the upstream
absolute expiry is 1500 ms after the epoch. -/
def tokenRespVerbatim : TokenResponse :=
  { access_token := "at1"
    refresh_token := some "rt1"
    scope := some "scope"
    token_type := some "Bearer"
    expiry_date := some 1500 }

/-- C6 counterexample: exchanging a code at `now = 0` against an upstream
absolute expiry of 1500 stores `expires_at = 1500` verbatim, while
`now + expires_in * 1000 = 1000`; the stored value is not derived by that
conversion. -/
theorem handleCallback_expiry_counterexample :
    (handleCallback tokenRespVerbatim 0).expires_at = 1500 ∧
      (handleCallback tokenRespVerbatim 0).expires_in = 1 ∧
      (0 : Int) + (handleCallback tokenRespVerbatim 0).expires_in * 1000 = 1000 ∧
      (handleCallback tokenRespVerbatim 0).expires_at
        ≠ 0 + (handleCallback tokenRespVerbatim 0).expires_in * 1000 := by
  refine ⟨rfl, by decide, by decide, by decide⟩

/-- C6 amended: on code exchange and on refresh, a present non-zero
upstream absolute `expiry_date` is stored into `expires_at` verbatim
(while `expires_in` is derived from it); only when the upstream omits the
absolute expiry is `expires_at` derived as `now + 3600 * 1000`. -/
theorem expiry_stored_verbatim (resp : TokenResponse) (creds : Credentials)
    (t : GoogleOAuthTokens) (now d : Int)
    (hvalid : isTokenValid (some t) now = false)
    (hrt : strTruthy t.refresh_token = true) :
    (resp.expiry_date = some d → d ≠ 0 →
      (handleCallback resp now).expires_at = d) ∧
    (resp.expiry_date = none →
      (handleCallback resp now).expires_at = now + 3600000) ∧
    (creds.expiry_date = some d → d ≠ 0 →
      ∃ t2, (refreshTokenIfNeeded (some t) now (.ok creds)).result = .ok (some t2) ∧
        t2.expires_at = d) := by
  refine ⟨?_, ?_, ?_⟩
  · intro hd hne
    simp [handleCallback, intOrD, hd, hne]
  · intro hd
    simp [handleCallback, intOrD, hd]
  · intro hd hne
    simp only [refreshTokenIfNeeded]
    rw [if_neg (by simp [hvalid]), if_neg (by simp [hrt])]
    exact ⟨_, rfl, by simp [intOrD, hd, hne]⟩

/-- The stored token set used by the auth witnesses: expired at `now = 2000`
with a refresh token available. -/
def storedExpiredTokens : GoogleOAuthTokens :=
  { access_token := "atOld"
    refresh_token := some "rt1"
    scope := some "scope"
    token_type := "Bearer"
    expires_in := 1
    expires_at := 1000 }

/-- The refresh credentials used by the auth witnesses. -/
def refreshCreds : Credentials :=
  { access_token := "atNew", expiry_date := some 7200000 }

/-- Witness for C6's amended statement at concrete inputs. -/
theorem expiry_stored_verbatim_witness :
    (handleCallback tokenRespVerbatim 0).expires_at = 1500 ∧
      ∃ t2, (refreshTokenIfNeeded (some storedExpiredTokens) 2000 (.ok refreshCreds)).result
          = .ok (some t2) ∧ t2.expires_at = 7200000 := by
  have h := expiry_stored_verbatim tokenRespVerbatim refreshCreds
    storedExpiredTokens 2000 7200000 (by decide) (by decide)
  have h2 := expiry_stored_verbatim tokenRespVerbatim refreshCreds
    storedExpiredTokens 2000 1500 (by decide) (by decide)
  exact ⟨h2.1 rfl (by decide), h.2.2 rfl (by decide)⟩

/-! ## C4: ensureFresh behaviour of refreshTokenIfNeeded -/

/-- C4: with a stored token set that is still valid, `refreshTokenIfNeeded`
succeeds with zero network calls; with an expired token set carrying a
refresh token, it issues exactly one refresh call and on success replaces
`access_token` and `expires_at` in place (preserving the refresh token);
with no token set at all, it fails with zero network calls. -/
theorem refreshTokenIfNeeded_spec (t : GoogleOAuthTokens) (now : Int)
    (creds : Credentials) (resp : Except String Credentials) :
    (isTokenValid (some t) now = true →
      refreshTokenIfNeeded (some t) now resp =
        { result := .ok (some t), networkCalls := 0 }) ∧
    (isTokenValid (some t) now = false → strTruthy t.refresh_token = true →
      (refreshTokenIfNeeded (some t) now (.ok creds)).networkCalls = 1 ∧
      ∃ t2, (refreshTokenIfNeeded (some t) now (.ok creds)).result = .ok (some t2) ∧
        t2.access_token = creds.access_token ∧
        t2.expires_at = intOrD creds.expiry_date (now + 3600000) ∧
        t2.refresh_token = t.refresh_token) ∧
    (refreshTokenIfNeeded none now resp =
      { result := .error "No tokens available", networkCalls := 0 }) := by
  refine ⟨?_, ?_, rfl⟩
  · intro hvalid
    simp only [refreshTokenIfNeeded]
    rw [if_pos hvalid]
  · intro hvalid hrt
    simp only [refreshTokenIfNeeded]
    rw [if_neg (by simp [hvalid]), if_neg (by simp [hrt])]
    exact ⟨rfl, _, rfl, rfl, rfl, rfl⟩

/-- A stored token set still valid at `now = 500`. -/
def storedValidTokens : GoogleOAuthTokens :=
  { storedExpiredTokens with expires_at := 1000 }

/-- Witness for C4 at concrete token states. -/
theorem refreshTokenIfNeeded_spec_witness :
    refreshTokenIfNeeded (some storedValidTokens) 500 (.ok refreshCreds) =
        { result := .ok (some storedValidTokens), networkCalls := 0 } ∧
      (refreshTokenIfNeeded (some storedExpiredTokens) 2000 (.ok refreshCreds)).networkCalls
        = 1 ∧
      refreshTokenIfNeeded none 500 (.ok refreshCreds) =
        { result := .error "No tokens available", networkCalls := 0 } := by
  have h := refreshTokenIfNeeded_spec storedValidTokens 500 refreshCreds (.ok refreshCreds)
  have h2 := refreshTokenIfNeeded_spec storedExpiredTokens 2000 refreshCreds (.ok refreshCreds)
  exact ⟨h.1 (by decide), (h2.2.1 (by decide) (by decide)).1, h.2.2⟩

/-! ## C7: partial failure during multi-account location listing -/

/-- C7: when one account's location fetch fails, `listLocations` skips that
account and still returns a success result whose locations are those
collected from the remaining accounts; when the account list is empty,
`listLocations` returns a failure result. -/
theorem listLocations_partial_failure (e : String)
    (xs ys : List (Except String (List ApiLocation))) :
    (listLocations (.ok (xs ++ .error e :: ys))).success = true ∧
      (listLocations (.ok (xs ++ .error e :: ys))).data =
        some { locations := collectLocations (xs ++ ys), nextPageToken := none } ∧
      (listLocations (.ok ([] : List (Except String (List ApiLocation))))).success
        = false := by
  have hskip : collectLocations (xs ++ .error e :: ys) = collectLocations (xs ++ ys) := by
    simp [collectLocations, List.foldl_append]
  have hne : (xs ++ .error e :: ys).length ≠ 0 := by simp
  refine ⟨?_, ?_, rfl⟩
  · rw [listLocations, if_neg hne]
  · rw [listLocations, if_neg hne]
    simp [hskip]

/-- A concrete raw location for the C7 witness. -/
def rawLocation : ApiLocation :=
  { name := some "locations/456"
    title := some "Cafe"
    phoneNumbers := some [{ phoneNumber := some "123" }]
    websiteUri := none
    storefrontAddress := none }

/-- Witness for C7: one failing account between two succeeding ones is
skipped while listing succeeds, and an empty account list fails. -/
theorem listLocations_partial_failure_witness :
    (listLocations (.ok [.ok [rawLocation], .error "boom", .ok []])).success = true ∧
      (listLocations (.ok [.ok [rawLocation], .error "boom", .ok []])).data =
        some { locations := collectLocations [.ok [rawLocation], .ok []]
               nextPageToken := none } ∧
      (listLocations (.ok ([] : List (Except String (List ApiLocation))))).success
        = false :=
  listLocations_partial_failure "boom" [.ok [rawLocation]] [.ok []]

end Gbp
